import Mathlib

/-
  Verification development for the podcast-pwa offline content-delivery
  subsystem.  The definitions below are a shallow embedding of

   * src/src/types/index.ts          (Episode, DownloadProgress)
   * src/src/services/download.ts    (DownloadService: downloadEpisode,
                                      cancelDownload, deleteDownload)
   * src/unnamed/part_004            (service worker: caching strategies,
                                      activate listener, handleClearCache)

  Asynchronous effects (the network fetch, the streamed body, a concurrent
  cancelDownload call) are modelled by an explicit environment value that
  fixes the outcome of each await point, so a run of `downloadEpisode`
  becomes a pure function of the starting state and that environment.
-/

namespace PodcastPWA

/-- Download status of an episode, from the union type
`downloadStatus: 'none' | 'downloading' | 'downloaded' | 'error'`
in src/src/types/index.ts. -/
inductive DownloadStatus
  | none
  | downloading
  | downloaded
  | error
deriving DecidableEq, Repr

/-- Episode record, from the `Episode` interface in src/src/types/index.ts.
`duration`/`playbackPosition` are numbers, `publishDate` a Date (modelled
as an integer timestamp).  Note the interface has no `lastError` field. -/
structure Episode where
  id : String
  subscriptionId : String
  title : String
  description : String
  audioUrl : String
  duration : Nat
  publishDate : Int
  downloadStatus : DownloadStatus
  playbackPosition : Nat
deriving DecidableEq, Repr

/-- Status carried by a progress event, from the `DownloadProgress`
interface in src/src/types/index.ts. -/
inductive ProgressStatus
  | downloading
  | completed
  | error
deriving DecidableEq, Repr

/-- A progress event `{episodeId, progress, status}` delivered to the
callback registered with `downloadEpisode`. -/
structure DownloadProgress where
  episodeId : String
  progress : Nat
  status : ProgressStatus
deriving DecidableEq, Repr

/-- A JavaScript `Error` value: its `name` and `message`. -/
structure JsError where
  name : String
  message : String
deriving DecidableEq, Repr

/-- Combined persistent/ephemeral state touched by the DownloadService:
the episodes object store of the metadata database (keyed by episode id),
the audio blob store (`true` iff an entry is stored under the id), and the
service's private `activeDownloads` / `downloadCallbacks` maps (modelled
as membership predicates). -/
structure CoordState where
  episodes : String → Option Episode
  blobs : String → Bool
  activeDownloads : String → Bool
  callbacks : String → Bool

/-- `storageService.updateEpisode`: a keyed `put` into the episodes store. -/
def updateEpisode (s : CoordState) (e : Episode) : CoordState :=
  { s with episodes := fun k => if k = e.id then some e else s.episodes k }

/-- `storeAudioData` / `deleteAudioData`: set or clear the blob-store entry. -/
def setBlob (s : CoordState) (id : String) (v : Bool) : CoordState :=
  { s with blobs := fun k => if k = id then v else s.blobs k }

/-- The `finally` block of `downloadEpisode`: remove the id from
`activeDownloads` and `downloadCallbacks`. -/
def finallyCleanup (s : CoordState) (id : String) : CoordState :=
  { s with
      activeDownloads := fun k => if k = id then false else s.activeDownloads k
      callbacks := fun k => if k = id then false else s.callbacks k }

/-- `Math.round(received / total * 100)` computed exactly over the
rationals: `round(100*r/t) = floor((200*r + t) / (2*t))`. -/
def roundPct (received total : Nat) : Nat :=
  (200 * received + total) / (2 * total)

/-- How a concurrent `cancelDownload` call, observed between two chunk
reads, manifests inside the read loop of `downloadEpisode`:
either the pending `reader.read()` rejects with a DOMException named
`AbortError`, or the read resolves and the explicit
`abortController.signal.aborted` check throws `Error('Download cancelled')`. -/
inductive CancelMode
  | abortReject
  | checkThrow
deriving DecidableEq, Repr

/-- The error observed in the catch block for each cancellation mode. -/
def cancelError : CancelMode → JsError
  | CancelMode.abortReject => ⟨"AbortError", "The operation was aborted."⟩
  | CancelMode.checkThrow => ⟨"Error", "Download cancelled"⟩

/-- Result of `fetch(episode.audioUrl, {signal})`: either the promise
rejects, or it resolves to a response with an `ok` flag, a status line, an
optional parsed `content-length` header and a streamed body given by the
byte length of each chunk. -/
inductive FetchResult
  | reject (err : JsError)
  | resp (ok : Bool) (status : Nat) (statusText : String)
      (contentLength : Option Nat) (body : List Nat)
deriving Repr

/-- Environment of one `downloadEpisode` run: the fetch outcome, and an
optional concurrent `cancelDownload(episode.id)` call that takes effect
after `n` chunks have been processed (`cancelDownload` aborts the
controller and deletes the id from `activeDownloads` and
`downloadCallbacks`; the loop then observes it as described by
`CancelMode`). -/
structure DownloadEnv where
  fetch : FetchResult
  cancelAt : Option (Nat × CancelMode)
deriving Repr

/-- Whether the concurrent cancellation takes effect at the loop head
where `processed` chunks have been handled so far. -/
def cancelNow (cancelAt : Option (Nat × CancelMode)) (processed : Nat) :
    Option CancelMode :=
  match cancelAt with
  | some (n, m) => if n = processed then some m else none
  | none => none

/-- The `while (true)` read loop of `downloadEpisode` (src/src/services/
download.ts lines 60-77).  Returns the progress events emitted by the loop
body, the loop result (`ok received` on a `done` read, `error e` when the
iteration throws), and whether `cancelDownload` fired during the loop
(removing the registered callback).  A per-chunk progress event is emitted
only when `total > 0`. -/
def readLoop (epId : String) (total : Nat) (cancelAt : Option (Nat × CancelMode)) :
    List Nat → Nat → Nat →
    List DownloadProgress × Except JsError Nat × Bool
  | [], processed, received =>
    match cancelNow cancelAt processed with
    | some CancelMode.abortReject =>
        ([], Except.error (cancelError CancelMode.abortReject), true)
    | some CancelMode.checkThrow => ([], Except.ok received, true)
    | none => ([], Except.ok received, false)
  | c :: rest, processed, received =>
    match cancelNow cancelAt processed with
    | some CancelMode.abortReject =>
        ([], Except.error (cancelError CancelMode.abortReject), true)
    | some CancelMode.checkThrow =>
        ([], Except.error (cancelError CancelMode.checkThrow), true)
    | none =>
        let r2 := received + c
        let ev :=
          if 0 < total then
            [DownloadProgress.mk epId (roundPct r2 total) ProgressStatus.downloading]
          else []
        let t := readLoop epId total cancelAt rest (processed + 1) r2
        (ev ++ t.1, t.2)

/-- Observable outcome of one `downloadEpisode` run: the final state, the
progress events actually delivered to the registered callback, and the
error surfaced (rethrown) to the caller, if any. -/
structure RunResult where
  state : CoordState
  events : List DownloadProgress
  surfaced : Option JsError

/-- The catch block of `downloadEpisode` (lines 98-114): write the episode
back with `downloadStatus: 'error'`, report an `error` progress event
(delivered only if a callback is still registered, i.e. `cancelDownload`
has not removed it), and rethrow the error unless its name is
`AbortError`; then the finally block cleans up. -/
def catchResult (s : CoordState) (e : Episode) (cb0 cancelled : Bool)
    (err : JsError) (evs : List DownloadProgress) : RunResult :=
  let sErr := updateEpisode s { e with downloadStatus := DownloadStatus.error }
  let evE :=
    if cb0 && !cancelled then
      [DownloadProgress.mk e.id 0 ProgressStatus.error]
    else []
  ⟨finallyCleanup sErr e.id, evs ++ evE,
    if err.name = "AbortError" then Option.none else some err⟩

/-- `DownloadService.downloadEpisode(episode, onProgress?)`
(src/src/services/download.ts lines 16-115), as a pure function of the
starting state and the `DownloadEnv` fixing the fetch outcome and any
concurrent `cancelDownload` call.  Control flow mirrors the source:
the early-return guard for `downloading`/`downloaded`; registration in
`activeDownloads` (and `downloadCallbacks` when a callback is supplied);
the `try` body (status := downloading, initial progress event, fetch,
`!response.ok` throw, read loop, blob store write, status := downloaded,
final completed event); the catch block; and the finally cleanup.
Events are recorded only when delivered to a registered callback. -/
def downloadEpisode (s : CoordState) (e : Episode) (hasCallback : Bool)
    (env : DownloadEnv) : RunResult :=
  if e.downloadStatus = DownloadStatus.downloading ∨
      e.downloadStatus = DownloadStatus.downloaded then
    ⟨s, [], Option.none⟩
  else
    let cb0 := hasCallback || s.callbacks e.id
    let s1 : CoordState :=
      { s with
          activeDownloads := fun k => if k = e.id then true else s.activeDownloads k
          callbacks := fun k =>
            if k = e.id then hasCallback || s.callbacks k else s.callbacks k }
    let s2 := updateEpisode s1 { e with downloadStatus := DownloadStatus.downloading }
    let ev0 :=
      if cb0 then [DownloadProgress.mk e.id 0 ProgressStatus.downloading] else []
    match env.fetch with
    | FetchResult.reject err => catchResult s2 e cb0 false err ev0
    | FetchResult.resp ok status statusText contentLength body =>
        if ok then
          let total := contentLength.getD 0
          let t := readLoop e.id total env.cancelAt body 0 0
          match t.2.1 with
          | Except.error err => catchResult s2 e cb0 t.2.2 err (ev0 ++ t.1)
          | Except.ok _ =>
              let s3 := setBlob s2 e.id true
              let s4 :=
                updateEpisode s3 { e with downloadStatus := DownloadStatus.downloaded }
              let evC :=
                if cb0 && !t.2.2 then
                  [DownloadProgress.mk e.id 100 ProgressStatus.completed]
                else []
              ⟨finallyCleanup s4 e.id, ev0 ++ t.1 ++ evC, Option.none⟩
        else
          catchResult s2 e cb0 false
            ⟨"Error", "HTTP " ++ toString status ++ ": " ++ statusText⟩ ev0

/-- `DownloadService.deleteDownload(episode)` (lines 133-145): delete the
blob-store entry for the id, then write the episode back with
`downloadStatus: 'none'`. -/
def deleteDownload (s : CoordState) (e : Episode) : CoordState :=
  updateEpisode (setBlob s e.id false) { e with downloadStatus := DownloadStatus.none }

/- ------------------------------------------------------------------ -/
/- Service worker (src/unnamed/part_004): cache names, activate
   listener, caching strategies, CLEAR_CACHE handler.                 -/
/- ------------------------------------------------------------------ -/

/-- `const CACHE_NAME = 'podcast-pwa-v1'` (part_004 line 7). -/
def CACHE_NAME : String := "podcast-pwa-v1"

/-- `const APP_SHELL_CACHE = 'app-shell-v1'` (line 8). -/
def APP_SHELL_CACHE : String := "app-shell-v1"

/-- `const AUDIO_CACHE = 'audio-files-v1'` (line 9). -/
def AUDIO_CACHE : String := "audio-files-v1"

/-- `const RSS_CACHE = 'rss-feeds-v1'` (line 10). -/
def RSS_CACHE : String := "rss-feeds-v1"

/-- The retain condition of the activate listener (lines 46-54): a cache
name is kept iff it is one of `APP_SHELL_CACHE`, `AUDIO_CACHE`,
`RSS_CACHE`; every other name is deleted. -/
def activateRetains (name : String) : Bool :=
  name == APP_SHELL_CACHE || name == AUDIO_CACHE || name == RSS_CACHE

/-- The cache names the activate listener deletes, given the names
existing at activation time. -/
def activateDeleted (existing : List String) : List String :=
  existing.filter (fun n => !activateRetains n)

/-- The cache names the activate listener retains. -/
def activateRetained (existing : List String) : List String :=
  existing.filter (fun n => activateRetains n)

/-- Modelled from the spec: partition names carry an explicit version
suffix (e.g. `"shell-v1"`), and a partition belongs to generation `g`
when its name ends in `-g`.  The spec-side notion of generation is not
represented in the service worker source, which compares whole names. -/
def hasGeneration (g : String) (name : String) : Bool :=
  List.isSuffixOf ("-" ++ g).data name.data

/-- An HTTP response as seen by the caching strategies: the `ok` flag and
an opaque payload identifying the response. -/
structure Response where
  ok : Bool
  payload : String
deriving DecidableEq, Repr

/-- Result of running a caching strategy: the value the returned promise
settles with (`Except.error` for a rejection; `Except.ok Option.none` for
resolving with `undefined`, as StaleWhileRevalidate can), the cache
partition contents afterwards, and how many network fetches were issued. -/
structure StratResult where
  result : Except JsError (Option Response)
  cache : String → Option Response
  netCalls : Nat

/-- `cache.put(request, response)`: keyed insertion, overwriting. -/
def cachePut (cache : String → Option Response) (request : String)
    (r : Response) : String → Option Response :=
  fun k => if k = request then some r else cache k

/-- `cacheFirstStrategy(request, cacheName)` (part_004 lines 128-158):
cache hit returns the cached response; on a miss the network is fetched,
an `ok` response is stored, and the response is returned; if the fetch
rejects, a document request falls back to the cached shell root and any
other request rethrows. -/
def cacheFirstStrategy (cache : String → Option Response)
    (network : String → Except JsError Response) (isDocument : Bool)
    (shellCache : String → Option Response) (request : String) : StratResult :=
  match cache request with
  | some r => ⟨Except.ok (some r), cache, 0⟩
  | Option.none =>
      match network request with
      | Except.ok nr =>
          ⟨Except.ok (some nr),
            (if nr.ok then cachePut cache request nr else cache), 1⟩
      | Except.error err =>
          if isDocument then
            ⟨Except.ok (shellCache "/index.html"), cache, 1⟩
          else
            ⟨Except.error err, cache, 1⟩

/-- `networkFirstStrategy(request, cacheName)` (lines 164-188): try the
network, store an `ok` response and return it; on a fetch rejection fall
back to the cache, rethrowing the network error on a miss. -/
def networkFirstStrategy (cache : String → Option Response)
    (network : String → Except JsError Response) (request : String) : StratResult :=
  match network request with
  | Except.ok nr =>
      ⟨Except.ok (some nr),
        (if nr.ok then cachePut cache request nr else cache), 1⟩
  | Except.error err =>
      match cache request with
      | some r => ⟨Except.ok (some r), cache, 1⟩
      | Option.none => ⟨Except.error err, cache, 1⟩

/-- `cacheOnlyStrategy(request, cacheName)` (lines 194-210): serve from
the cache or throw `Error('Audio file not downloaded')`; the network
argument is never consulted. -/
def cacheOnlyStrategy (cache : String → Option Response)
    (network : String → Except JsError Response) (request : String) : StratResult :=
  match cache request with
  | some r => ⟨Except.ok (some r), cache, 0⟩
  | Option.none =>
      ⟨Except.error ⟨"Error", "Audio file not downloaded"⟩, cache, 0⟩

/-- `staleWhileRevalidateStrategy(request, cacheName)` (lines 216-236):
always start a background fetch whose `.then` stores an `ok` response and
whose `.catch` swallows a rejection (resolving with `undefined`); return
the cached response immediately on a hit, otherwise settle with the
background fetch result. -/
def staleWhileRevalidateStrategy (cache : String → Option Response)
    (network : String → Except JsError Response) (request : String) : StratResult :=
  let netValue : Option Response :=
    match network request with
    | Except.ok nr => some nr
    | Except.error _ => Option.none
  let cache2 : String → Option Response :=
    match network request with
    | Except.ok nr => if nr.ok then cachePut cache request nr else cache
    | Except.error _ => cache
  match cache request with
  | some r => ⟨Except.ok (some r), cache2, 1⟩
  | Option.none => ⟨Except.ok netValue, cache2, 1⟩

/-- The partitions `handleClearCache` targets for a given `cacheType`, in
the order the source awaits their deletion (part_004 lines 341-362). -/
def clearTargets (cacheType : String) : List String :=
  (if cacheType = "audio" ∨ cacheType = "all" then [AUDIO_CACHE] else []) ++
    (if cacheType = "rss" ∨ cacheType = "all" then [RSS_CACHE] else []) ++
      (if cacheType = "all" then [CACHE_NAME] else [])

/-- Sequential `await caches.delete(...)` calls inside one `try` block:
each listed name is attempted in order; the first rejection is caught by
the single surrounding catch (which logs), so the remaining names are not
attempted.  Returns the names actually attempted and whether the catch
block logged an error. -/
def runDeletes (failsOn : String → Bool) : List String → List String × Bool
  | [] => ([], false)
  | n :: rest =>
      if failsOn n then ([n], true)
      else
        let t := runDeletes failsOn rest
        (n :: t.1, t.2)

/-- `handleClearCache(payload)` (lines 341-362), parameterised by which
partition deletions reject. -/
def handleClearCache (cacheType : String) (failsOn : String → Bool) :
    List String × Bool :=
  runDeletes failsOn (clearTargets cacheType)

/- ------------------------------------------------------------------ -/
/- Derived descriptions and helper lemmas.                            -/
/- ------------------------------------------------------------------ -/

/-- The per-chunk progress events of a download: for each chunk, the
event `{episodeId, round(received/total*100), downloading}` where
`received` is the running total of bytes after that chunk. -/
def chunkProgressFrom (epId : String) (total : Nat) :
    List Nat → Nat → List DownloadProgress
  | [], _ => []
  | c :: rest, received =>
      DownloadProgress.mk epId (roundPct (received + c) total) ProgressStatus.downloading
        :: chunkProgressFrom epId total rest (received + c)

/-- The iff between status `downloaded` and the presence of a blob-store
entry, at every id. -/
def downloadedIffBlob (s : CoordState) : Prop :=
  ∀ id, (s.episodes id).map Episode.downloadStatus = some DownloadStatus.downloaded ↔
    s.blobs id = true

/-- A concrete episode used to instantiate hypotheses of the theorems
below. -/
def e0 : Episode :=
  ⟨"ep1", "sub1", "T", "D", "http://x/a.mp3", 100, 0, DownloadStatus.none, 0⟩

/-- A concrete starting state holding `e0` (not downloaded, no blob, no
active task). -/
def s0 : CoordState :=
  ⟨fun k => if k = "ep1" then some e0 else Option.none,
   fun _ => false, fun _ => false, fun _ => false⟩

lemma readLoop_no_cancel (epId : String) (total : Nat) :
    ∀ (chunks : List Nat) (processed received : Nat),
      readLoop epId total Option.none chunks processed received =
        ((if 0 < total then chunkProgressFrom epId total chunks received else []),
          Except.ok (received + chunks.sum), false) := by
  intro chunks
  induction chunks with
  | nil =>
      intro processed received
      simp [readLoop, cancelNow, chunkProgressFrom]
  | cons c rest ih =>
      intro processed received
      simp only [readLoop, cancelNow]
      rw [ih (processed + 1) (received + c)]
      by_cases ht : 0 < total <;>
        simp [ht, chunkProgressFrom, List.sum_cons, Nat.add_assoc]

lemma readLoop_cancel (epId : String) (total : Nat) (mode : CancelMode) :
    ∀ (n : Nat) (chunks : List Nat) (m processed received : Nat),
      m = processed + n →
      (mode = CancelMode.checkThrow → n < chunks.length) →
      (mode = CancelMode.abortReject → n ≤ chunks.length) →
      readLoop epId total (some (m, mode)) chunks processed received =
        ((if 0 < total then chunkProgressFrom epId total (chunks.take n) received
          else []),
          Except.error (cancelError mode), true) := by
  intro n
  induction n with
  | zero =>
      intro chunks m processed received hm hk _
      have hmp : m = processed := by omega
      cases mode with
      | abortReject =>
          cases chunks with
          | nil => simp [readLoop, cancelNow, hmp, chunkProgressFrom]
          | cons c rest => simp [readLoop, cancelNow, hmp, chunkProgressFrom]
      | checkThrow =>
          have : 0 < chunks.length := hk rfl
          cases chunks with
          | nil => simp at this
          | cons c rest => simp [readLoop, cancelNow, hmp, chunkProgressFrom]
  | succ n ih =>
      intro chunks m processed received hm hk ha
      have hmp : ¬(m = processed) := by omega
      cases chunks with
      | nil =>
          exfalso
          cases mode with
          | abortReject => exact absurd (ha rfl) (by simp)
          | checkThrow => exact absurd (hk rfl) (by simp)
      | cons c rest =>
          simp only [readLoop, cancelNow, if_neg hmp]
          rw [ih rest m (processed + 1) (received + c) (by omega)
            (fun h => by have := hk h; simpa using this)
            (fun h => by have := ha h; simpa using this)]
          by_cases ht : 0 < total <;> simp [ht, chunkProgressFrom]

lemma runDeletes_eq (failsOn : String → Bool) :
    ∀ l : List String,
      runDeletes failsOn l =
        (l.takeWhile (fun n => !failsOn n) ++
          (l.dropWhile (fun n => !failsOn n)).take 1,
          l.any failsOn) := by
  intro l
  induction l with
  | nil => simp [runDeletes]
  | cons n rest ih =>
      by_cases h : failsOn n <;>
        simp [runDeletes, h, List.takeWhile_cons, List.dropWhile_cons, ih]

lemma cachePut_ok_or (cache : String → Option Response) (request k : String)
    (nr : Response) :
    (if nr.ok then cachePut cache request nr else cache) k = cache k ∨
      ∃ r, (if nr.ok then cachePut cache request nr else cache) k = some r ∧
        r.ok = true := by
  by_cases h : nr.ok
  · by_cases hk : k = request
    · exact Or.inr ⟨nr, by simp [cachePut, h, hk]⟩
    · exact Or.inl (by simp [cachePut, h, hk])
  · exact Or.inl (by simp [h])

lemma roundPct_scale (a b cs : Nat) (hcs : 0 < cs) :
    roundPct (a * cs) (b * cs) = roundPct a b := by
  unfold roundPct
  rw [show 200 * (a * cs) + b * cs = cs * (200 * a + b) by ring,
    show 2 * (b * cs) = cs * (2 * b) by ring,
    Nat.mul_div_mul_left _ _ hcs]

lemma roundPct_ten (j : Nat) : roundPct j 10 = 10 * j := by
  unfold roundPct
  omega

lemma chunkProgressFrom_replicate (epId : String) (cs : Nat) (hcs : 0 < cs) :
    ∀ (m acc : Nat),
      chunkProgressFrom epId (10 * cs) (List.replicate m cs) (acc * cs) =
        (List.range m).map (fun k =>
          DownloadProgress.mk epId (roundPct (acc + (k + 1)) 10)
            ProgressStatus.downloading) := by
  intro m
  induction m with
  | zero => intro acc; simp [chunkProgressFrom]
  | succ m ih =>
      intro acc
      rw [List.replicate_succ, List.range_succ_eq_map]
      show DownloadProgress.mk epId (roundPct (acc * cs + cs) (10 * cs))
          ProgressStatus.downloading ::
          chunkProgressFrom epId (10 * cs) (List.replicate m cs) (acc * cs + cs) = _
      have hstep : acc * cs + cs = (acc + 1) * cs := by ring
      rw [hstep, ih (acc + 1), roundPct_scale _ _ _ hcs]
      simp only [List.map_cons, List.map_map]
      congr 1
      apply List.map_congr_left
      intro a _
      simp only [Function.comp_apply]
      exact congrArg
        (fun p => DownloadProgress.mk epId (roundPct p 10) ProgressStatus.downloading)
        (by omega)

/-- The success path of `downloadEpisode` with a supplied progress
callback and no concurrent cancellation: the delivered events are the
initial `downloading` event at 0, the per-chunk rounded percentages (when
a total is known), and the final `completed` event at 100; the stored
record becomes `downloaded`, the blob-store entry is created, and no
error is surfaced. -/
lemma downloadEpisode_success_run (s : CoordState) (e : Episode)
    (total0 : Option Nat) (body : List Nat)
    (h1 : e.downloadStatus ≠ DownloadStatus.downloading)
    (h2 : e.downloadStatus ≠ DownloadStatus.downloaded) :
    (downloadEpisode s e true
        ⟨FetchResult.resp true 200 "OK" total0 body, Option.none⟩).events =
      DownloadProgress.mk e.id 0 ProgressStatus.downloading ::
        ((if 0 < total0.getD 0 then
            chunkProgressFrom e.id (total0.getD 0) body 0 else []) ++
          [DownloadProgress.mk e.id 100 ProgressStatus.completed]) ∧
    (downloadEpisode s e true
        ⟨FetchResult.resp true 200 "OK" total0 body, Option.none⟩).state.episodes e.id =
      some { e with downloadStatus := DownloadStatus.downloaded } ∧
    (downloadEpisode s e true
        ⟨FetchResult.resp true 200 "OK" total0 body, Option.none⟩).state.blobs e.id =
      true ∧
    (downloadEpisode s e true
        ⟨FetchResult.resp true 200 "OK" total0 body, Option.none⟩).surfaced =
      Option.none := by
  have hguard : ¬(e.downloadStatus = DownloadStatus.downloading ∨
      e.downloadStatus = DownloadStatus.downloaded) := by tauto
  unfold downloadEpisode
  rw [if_neg hguard]
  simp only [readLoop_no_cancel]
  simp [updateEpisode, setBlob, finallyCleanup]

/- ------------------------------------------------------------------ -/
/- Claims.                                                            -/
/- ------------------------------------------------------------------ -/

/-- Claim C1 (counterexample): cancelling a download of `e0` after its
first chunk leaves the stored record with status `error` — the failed
state — not the absent (`none`) status the claim requires. -/
theorem cancel_sets_error_counterexample :
    (downloadEpisode s0 e0 true
        ⟨FetchResult.resp true 200 "OK" (some 10) [5, 5],
          some (1, CancelMode.checkThrow)⟩).state.episodes "ep1" =
      some { e0 with downloadStatus := DownloadStatus.error } ∧
    (downloadEpisode s0 e0 true
        ⟨FetchResult.resp true 200 "OK" (some 10) [5, 5],
          some (1, CancelMode.checkThrow)⟩).state.episodes "ep1" ≠
      some { e0 with downloadStatus := DownloadStatus.none } := by
  decide

/-- Claim C1 (amended): calling `cancelDownload(id)` during a download
(after `n` chunks, in either observable cancellation mode) sets the
episode's persisted status to `error` — the failed state, not absent —
while indeed delivering no progress event after the cancellation point:
the delivered events are exactly the initial event plus the per-chunk
events of the first `n` chunks (`cancelDownload` removes the callback, so
neither the catch block's `error` event nor anything later is
delivered). -/
theorem cancel_error_status_and_no_later_events (s : CoordState) (e : Episode)
    (hasCallback : Bool) (total : Nat) (body : List Nat) (n : Nat)
    (mode : CancelMode)
    (h1 : e.downloadStatus ≠ DownloadStatus.downloading)
    (h2 : e.downloadStatus ≠ DownloadStatus.downloaded)
    (hk : mode = CancelMode.checkThrow → n < body.length)
    (ha : mode = CancelMode.abortReject → n ≤ body.length) :
    (downloadEpisode s e hasCallback
        ⟨FetchResult.resp true 200 "OK" (some total) body,
          some (n, mode)⟩).state.episodes e.id =
      some { e with downloadStatus := DownloadStatus.error } ∧
    (downloadEpisode s e hasCallback
        ⟨FetchResult.resp true 200 "OK" (some total) body,
          some (n, mode)⟩).events =
      (if hasCallback || s.callbacks e.id then
        [DownloadProgress.mk e.id 0 ProgressStatus.downloading] else []) ++
      (if 0 < total then chunkProgressFrom e.id total (body.take n) 0 else []) := by
  have hguard : ¬(e.downloadStatus = DownloadStatus.downloading ∨
      e.downloadStatus = DownloadStatus.downloaded) := by tauto
  unfold downloadEpisode
  rw [if_neg hguard]
  have hcancel := readLoop_cancel e.id total mode n body n 0 0 (by omega) hk ha
  simp [hcancel, catchResult, updateEpisode, finallyCleanup]

/-- Witness for the amended C1 at a concrete cancelled download. -/
theorem cancel_error_status_witness :
    (downloadEpisode s0 e0 true
        ⟨FetchResult.resp true 200 "OK" (some 10) [5, 5],
          some (1, CancelMode.checkThrow)⟩).state.episodes e0.id =
      some { e0 with downloadStatus := DownloadStatus.error } ∧
    (downloadEpisode s0 e0 true
        ⟨FetchResult.resp true 200 "OK" (some 10) [5, 5],
          some (1, CancelMode.checkThrow)⟩).events =
      (if true || s0.callbacks e0.id then
        [DownloadProgress.mk e0.id 0 ProgressStatus.downloading] else []) ++
      (if 0 < 10 then chunkProgressFrom e0.id 10 ([5, 5].take 1) 0 else []) :=
  cancel_error_status_and_no_later_events s0 e0 true 10 [5, 5] 1
    CancelMode.checkThrow (by decide) (by decide) (by decide) (by decide)

/-- Claim C2: if the metadata and blob stores satisfy the
status-`downloaded`-iff-blob-present invariant and the episode object
passed to the coordinator matches its stored record, then after any
complete `downloadEpisode` run (success, HTTP error, transport failure,
or cancellation — any environment) and after any `deleteDownload`, the
invariant holds again at every id. -/
theorem status_downloaded_iff_blob (s : CoordState) (e : Episode)
    (hasCallback : Bool) (env : DownloadEnv)
    (hInv : downloadedIffBlob s)
    (hCur : s.episodes e.id = some e) :
    downloadedIffBlob (downloadEpisode s e hasCallback env).state ∧
    downloadedIffBlob (deleteDownload s e) := by
  have hdel : downloadedIffBlob (deleteDownload s e) := by
    intro id
    by_cases hid : id = e.id
    · subst hid
      simp [deleteDownload, updateEpisode, setBlob]
    · simp only [deleteDownload, updateEpisode, setBlob]
      simp [hid]
      simpa using hInv id
  refine ⟨?_, hdel⟩
  by_cases hg : e.downloadStatus = DownloadStatus.downloading ∨
      e.downloadStatus = DownloadStatus.downloaded
  · unfold downloadEpisode
    rw [if_pos hg]
    exact hInv
  · have hnd : e.downloadStatus ≠ DownloadStatus.downloaded := fun hh => hg (Or.inr hh)
    have hmap := hInv e.id
    rw [hCur] at hmap
    have hnb : s.blobs e.id = false := by
      cases hb : s.blobs e.id with
      | false => rfl
      | true =>
          exfalso
          have := hmap.mpr hb
          simp only [Option.map_some] at this
          exact hnd (Option.some.inj this)
    unfold downloadEpisode
    rw [if_neg hg]
    obtain ⟨fetch, cancelAt⟩ := env
    cases fetch with
    | reject err =>
        intro id
        by_cases hid : id = e.id
        · subst hid
          simp [catchResult, updateEpisode, finallyCleanup, hnb]
        · simp only [catchResult, updateEpisode, finallyCleanup]
          simp [hid]
          simpa using hInv id
    | resp ok status statusText contentLength body =>
        cases ok with
        | false =>
            intro id
            by_cases hid : id = e.id
            · subst hid
              simp [catchResult, updateEpisode, finallyCleanup, hnb]
            · simp only [catchResult, updateEpisode, finallyCleanup]
              simp [hid]
              simpa using hInv id
        | true =>
            rcases ht : readLoop e.id (contentLength.getD 0) cancelAt body 0 0 with
              ⟨evs, exc, cflag⟩
            cases exc with
            | error err =>
                intro id
                by_cases hid : id = e.id
                · subst hid
                  simp [ht, catchResult, updateEpisode, finallyCleanup, hnb]
                · simp only [ht, catchResult, updateEpisode, finallyCleanup]
                  simp [hid]
                  simpa using hInv id
            | ok rec =>
                intro id
                by_cases hid : id = e.id
                · subst hid
                  simp [ht, catchResult, updateEpisode, setBlob, finallyCleanup]
                · simp only [ht, catchResult, updateEpisode, setBlob, finallyCleanup]
                  simp [hid]
                  simpa using hInv id

/-- Witness for C2: a successful download of `e0` from the consistent
state `s0`, and a `deleteDownload` from `s0`, both preserve the
invariant. -/
theorem status_downloaded_iff_blob_witness :
    downloadedIffBlob (downloadEpisode s0 e0 true
        ⟨FetchResult.resp true 200 "OK" (some 10) [5, 5], Option.none⟩).state ∧
    downloadedIffBlob (deleteDownload s0 e0) :=
  status_downloaded_iff_blob s0 e0 true
    ⟨FetchResult.resp true 200 "OK" (some 10) [5, 5], Option.none⟩
    (by
      intro id
      by_cases h : id = "ep1" <;> simp [s0, e0, h])
    (by decide)

/-- Claim C4 (counterexample): a deliberate cancellation observed by the
read loop's explicit `signal.aborted` check throws a plain
`Error('Download cancelled')`, whose name is not `AbortError`; the catch
block therefore rethrows it to the caller instead of swallowing it. -/
theorem cancellation_error_surfaced_counterexample :
    (downloadEpisode s0 e0 true
        ⟨FetchResult.resp true 200 "OK" (some 10) [5, 5],
          some (1, CancelMode.checkThrow)⟩).surfaced =
      some ⟨"Error", "Download cancelled"⟩ := by
  decide

/-- Claim C4 (amended): a transport failure (a fetch rejection whose name
is not `AbortError`) sets the stored status to `error` (the failed
state), stores nothing else on the record — the `Episode` interface has
no `lastError` field, so the written record differs from the input only
in `downloadStatus` — delivers the `error` progress event, and rethrows
the error to the caller.  A cancellation observed as an `AbortError`
rejection is swallowed; but the cancellation observed through the
coordinator's own `signal.aborted` check throws a plain `Error`, which is
rethrown rather than swallowed. -/
theorem failure_error_status_and_surfacing (s : CoordState) (e : Episode)
    (err : JsError) (total : Nat) (body : List Nat)
    (h1 : e.downloadStatus ≠ DownloadStatus.downloading)
    (h2 : e.downloadStatus ≠ DownloadStatus.downloaded)
    (hname : err.name ≠ "AbortError") :
    ((downloadEpisode s e true ⟨FetchResult.reject err, Option.none⟩).state.episodes
        e.id = some { e with downloadStatus := DownloadStatus.error } ∧
      (downloadEpisode s e true ⟨FetchResult.reject err, Option.none⟩).events =
        [DownloadProgress.mk e.id 0 ProgressStatus.downloading,
          DownloadProgress.mk e.id 0 ProgressStatus.error] ∧
      (downloadEpisode s e true ⟨FetchResult.reject err, Option.none⟩).surfaced =
        some err) ∧
    (∀ n, n ≤ body.length →
      (downloadEpisode s e true
          ⟨FetchResult.resp true 200 "OK" (some total) body,
            some (n, CancelMode.abortReject)⟩).surfaced = Option.none) ∧
    (∀ n, n < body.length →
      (downloadEpisode s e true
          ⟨FetchResult.resp true 200 "OK" (some total) body,
            some (n, CancelMode.checkThrow)⟩).surfaced =
        some ⟨"Error", "Download cancelled"⟩) := by
  have hguard : ¬(e.downloadStatus = DownloadStatus.downloading ∨
      e.downloadStatus = DownloadStatus.downloaded) := by tauto
  refine ⟨?_, ?_, ?_⟩
  · unfold downloadEpisode
    rw [if_neg hguard]
    simp [catchResult, updateEpisode, finallyCleanup, hname]
  · intro n hn
    unfold downloadEpisode
    rw [if_neg hguard]
    have hcancel := readLoop_cancel e.id total CancelMode.abortReject n body n 0 0
      (by omega) (by intro h; simp at h) (fun _ => hn)
    simp [hcancel, catchResult, cancelError]
  · intro n hn
    unfold downloadEpisode
    rw [if_neg hguard]
    have hcancel := readLoop_cancel e.id total CancelMode.checkThrow n body n 0 0
      (by omega) (fun _ => hn) (by intro h; simp at h)
    simp [hcancel, catchResult, cancelError]

/-- Witness for the amended C4 at a concrete transport failure and
concrete cancellations. -/
theorem failure_error_status_witness :
    ((downloadEpisode s0 e0 true
        ⟨FetchResult.reject ⟨"TypeError", "Failed to fetch"⟩,
          Option.none⟩).state.episodes e0.id =
        some { e0 with downloadStatus := DownloadStatus.error } ∧
      (downloadEpisode s0 e0 true
        ⟨FetchResult.reject ⟨"TypeError", "Failed to fetch"⟩, Option.none⟩).events =
        [DownloadProgress.mk e0.id 0 ProgressStatus.downloading,
          DownloadProgress.mk e0.id 0 ProgressStatus.error] ∧
      (downloadEpisode s0 e0 true
        ⟨FetchResult.reject ⟨"TypeError", "Failed to fetch"⟩, Option.none⟩).surfaced =
        some ⟨"TypeError", "Failed to fetch"⟩) ∧
    (downloadEpisode s0 e0 true
        ⟨FetchResult.resp true 200 "OK" (some 10) [5, 5],
          some (1, CancelMode.abortReject)⟩).surfaced = Option.none ∧
    (downloadEpisode s0 e0 true
        ⟨FetchResult.resp true 200 "OK" (some 10) [5, 5],
          some (1, CancelMode.checkThrow)⟩).surfaced =
      some ⟨"Error", "Download cancelled"⟩ := by
  have h := failure_error_status_and_surfacing s0 e0
    ⟨"TypeError", "Failed to fetch"⟩ 10 [5, 5] (by decide) (by decide) (by decide)
  exact ⟨h.1, h.2.1 1 (by decide), h.2.2 1 (by decide)⟩

/-- Claim C5 (counterexample): when the response carries no total-size
header, the download of a 5-byte body delivers no per-chunk progress
event at all — the delivered events are only the initial `downloading`
event at 0 and the final `completed` event at 100; no event reports the
bytes received, contrary to the claimed bytes-received-only reporting. -/
theorem progress_no_total_counterexample :
    (downloadEpisode s0 e0 true
        ⟨FetchResult.resp true 200 "OK" Option.none [5], Option.none⟩).events =
      [DownloadProgress.mk "ep1" 0 ProgressStatus.downloading,
        DownloadProgress.mk "ep1" 100 ProgressStatus.completed] := by
  decide

/-- Claim C5 (amended): with a positive total from the content-length
header, each chunk produces a `downloading` event with percentage
`round(received/total*100)` (the `chunkProgressFrom`/`roundPct` list);
with the header absent, no per-chunk progress is reported at all — only
the initial event at 0 and the final `completed` event at 100.  For a
body of 10 equal chunks with matching total, the progress sequence is
10, 20, …, 100 — ending exactly at 100 — followed by the stored record
becoming `downloaded` with the blob present and the final `completed`
event at 100. -/
theorem progress_reporting (s : CoordState) (e : Episode)
    (h1 : e.downloadStatus ≠ DownloadStatus.downloading)
    (h2 : e.downloadStatus ≠ DownloadStatus.downloaded) :
    (∀ (total : Nat) (body : List Nat),
      (downloadEpisode s e true
          ⟨FetchResult.resp true 200 "OK" (some total) body, Option.none⟩).events =
        DownloadProgress.mk e.id 0 ProgressStatus.downloading ::
          ((if 0 < total then chunkProgressFrom e.id total body 0 else []) ++
            [DownloadProgress.mk e.id 100 ProgressStatus.completed])) ∧
    (∀ body : List Nat,
      (downloadEpisode s e true
          ⟨FetchResult.resp true 200 "OK" Option.none body, Option.none⟩).events =
        [DownloadProgress.mk e.id 0 ProgressStatus.downloading,
          DownloadProgress.mk e.id 100 ProgressStatus.completed]) ∧
    (∀ cs : Nat, 0 < cs →
      (downloadEpisode s e true
          ⟨FetchResult.resp true 200 "OK" (some (10 * cs)) (List.replicate 10 cs),
            Option.none⟩).events =
        DownloadProgress.mk e.id 0 ProgressStatus.downloading ::
          ((List.range 10).map (fun k =>
            DownloadProgress.mk e.id (10 * (k + 1)) ProgressStatus.downloading) ++
            [DownloadProgress.mk e.id 100 ProgressStatus.completed]) ∧
      (downloadEpisode s e true
          ⟨FetchResult.resp true 200 "OK" (some (10 * cs)) (List.replicate 10 cs),
            Option.none⟩).state.episodes e.id =
        some { e with downloadStatus := DownloadStatus.downloaded } ∧
      (downloadEpisode s e true
          ⟨FetchResult.resp true 200 "OK" (some (10 * cs)) (List.replicate 10 cs),
            Option.none⟩).state.blobs e.id = true) := by
  refine ⟨?_, ?_, ?_⟩
  · intro total body
    exact (downloadEpisode_success_run s e (some total) body h1 h2).1
  · intro body
    have h := (downloadEpisode_success_run s e Option.none body h1 h2).1
    simpa using h
  · intro cs hcs
    have h := downloadEpisode_success_run s e (some (10 * cs)) (List.replicate 10 cs) h1 h2
    have hrep := chunkProgressFrom_replicate e.id cs hcs 10 0
    have hzero : (0 : Nat) * cs = 0 := by ring
    rw [hzero] at hrep
    refine ⟨?_, h.2.1, h.2.2.1⟩
    rw [h.1]
    have htot : (0 : Nat) < (some (10 * cs)).getD 0 := by
      simp
      omega
    simp only [Option.getD_some] at htot ⊢
    rw [if_pos htot, hrep]
    simp [roundPct_ten]

/-- Witness for the amended C5: concrete downloads of `e0` with a known
total, with no total header, and in 10 equal chunks of 3 bytes. -/
theorem progress_reporting_witness :
    (downloadEpisode s0 e0 true
        ⟨FetchResult.resp true 200 "OK" (some 10) [5, 5], Option.none⟩).events =
      DownloadProgress.mk e0.id 0 ProgressStatus.downloading ::
        ((if 0 < 10 then chunkProgressFrom e0.id 10 [5, 5] 0 else []) ++
          [DownloadProgress.mk e0.id 100 ProgressStatus.completed]) ∧
    (downloadEpisode s0 e0 true
        ⟨FetchResult.resp true 200 "OK" Option.none [5], Option.none⟩).events =
      [DownloadProgress.mk e0.id 0 ProgressStatus.downloading,
        DownloadProgress.mk e0.id 100 ProgressStatus.completed] ∧
    (downloadEpisode s0 e0 true
        ⟨FetchResult.resp true 200 "OK" (some 30) (List.replicate 10 3),
          Option.none⟩).state.episodes e0.id =
      some { e0 with downloadStatus := DownloadStatus.downloaded } := by
  have h := progress_reporting s0 e0 (by decide) (by decide)
  exact ⟨h.1 10 [5, 5], h.2.1 [5], by
    have h3 := h.2.2 3 (by decide)
    simpa using h3.2.1⟩

/-- Claim C3 (counterexample): for the `CLEAR_CACHE` command with scope
`all`, when deleting the audio partition rejects, the RSS partition is a
targeted sibling whose deletion is never attempted — the single
try/catch in `handleClearCache` aborts the remaining deletions, so the
deletions are not independent as claimed. -/
theorem clearCache_independence_counterexample :
    (handleClearCache "all" (fun n => n == AUDIO_CACHE)).1 = [AUDIO_CACHE] ∧
    RSS_CACHE ∈ clearTargets "all" ∧
    RSS_CACHE ∉ (handleClearCache "all" (fun n => n == AUDIO_CACHE)).1 := by
  decide

/-- Claim C3 (amended): `handleClearCache` attempts the targeted
partitions in source order inside one try block; the partitions actually
attempted are the failure-free head of the target list plus the first
failing one, a failure is logged exactly when some targeted deletion
fails, and the targets after the first failure are never attempted. -/
theorem clearCache_stops_at_first_failure (cacheType : String)
    (failsOn : String → Bool) :
    handleClearCache cacheType failsOn =
      ((clearTargets cacheType).takeWhile (fun n => !failsOn n) ++
        ((clearTargets cacheType).dropWhile (fun n => !failsOn n)).take 1,
        (clearTargets cacheType).any failsOn) := by
  unfold handleClearCache
  exact runDeletes_eq failsOn (clearTargets cacheType)

/-- Claim C6: the CacheOnly strategy used for media-class (audio)
requests issues zero network fetches, leaves the partition unchanged, and
returns the cached response on a hit or fails with the
resource-not-cached error (`Error('Audio file not downloaded')`) on a
miss. -/
theorem cacheOnly_never_fetches (cache : String → Option Response)
    (network : String → Except JsError Response) (request : String) :
    (cacheOnlyStrategy cache network request).netCalls = 0 ∧
    (cacheOnlyStrategy cache network request).cache = cache ∧
    (cacheOnlyStrategy cache network request).result =
      (match cache request with
        | some r => Except.ok (some r)
        | Option.none => Except.error ⟨"Error", "Audio file not downloaded"⟩) := by
  cases h : cache request <;> simp [cacheOnlyStrategy, h]

/-- Claim C7: calling `downloadEpisode` for an episode whose status is
already `downloading` or `downloaded` is a no-op: the state is returned
unchanged, no progress event is delivered, no error is surfaced, and the
environment (network) is never consulted. -/
theorem startDownload_noop_when_active (s : CoordState) (e : Episode)
    (hasCallback : Bool) (env : DownloadEnv)
    (h : e.downloadStatus = DownloadStatus.downloading ∨
      e.downloadStatus = DownloadStatus.downloaded) :
    downloadEpisode s e hasCallback env = ⟨s, [], Option.none⟩ := by
  unfold downloadEpisode
  rw [if_pos h]

/-- Witness for C7 at a concrete episode already downloading. -/
theorem startDownload_noop_witness :
    downloadEpisode s0 { e0 with downloadStatus := DownloadStatus.downloading } true
        ⟨FetchResult.reject ⟨"TypeError", "Failed to fetch"⟩, Option.none⟩ =
      ⟨s0, [], Option.none⟩ :=
  startDownload_noop_when_active s0
    { e0 with downloadStatus := DownloadStatus.downloading } true
    ⟨FetchResult.reject ⟨"TypeError", "Failed to fetch"⟩, Option.none⟩ (Or.inl rfl)

/-- Claim C8: the activate listener keeps only the three whitelisted
names `app-shell-v1`, `audio-files-v1`, `rss-feeds-v1`.  It therefore
deletes `podcast-pwa-v1` — a partition of the *current* generation `v1`,
actively populated by the NetworkFirst and StaleWhileRevalidate
strategies — contradicting the stated rule that every partition of the
current generation is retained (and the source comment that only old
cache versions are deleted).  The claim's own scenario (deleting the
superseded `app-shell-v0` and retaining the current-generation shell and
audio partitions) does hold. -/
theorem activate_deletes_current_generation_cache :
    activateDeleted [CACHE_NAME, APP_SHELL_CACHE] = [CACHE_NAME] ∧
    hasGeneration "v1" CACHE_NAME = true ∧
    activateDeleted [APP_SHELL_CACHE, AUDIO_CACHE, "app-shell-v0"] =
      ["app-shell-v0"] ∧
    activateRetained [APP_SHELL_CACHE, AUDIO_CACHE, "app-shell-v0"] =
      [APP_SHELL_CACHE, AUDIO_CACHE] := by
  decide

/-- Claim C9: the CacheFirst, NetworkFirst and StaleWhileRevalidate
strategies only ever write an `ok` network response into the partition:
at every key, the partition after the strategy either still holds its old
entry or holds a response with `ok = true`. -/
theorem strategies_store_only_ok_responses (cache shellCache : String → Option Response)
    (network : String → Except JsError Response) (isDocument : Bool)
    (request k : String) :
    ((cacheFirstStrategy cache network isDocument shellCache request).cache k = cache k ∨
      ∃ r, (cacheFirstStrategy cache network isDocument shellCache request).cache k =
        some r ∧ r.ok = true) ∧
    ((networkFirstStrategy cache network request).cache k = cache k ∨
      ∃ r, (networkFirstStrategy cache network request).cache k = some r ∧
        r.ok = true) ∧
    ((staleWhileRevalidateStrategy cache network request).cache k = cache k ∨
      ∃ r, (staleWhileRevalidateStrategy cache network request).cache k = some r ∧
        r.ok = true) := by
  refine ⟨?_, ?_, ?_⟩
  · unfold cacheFirstStrategy
    cases hc : cache request with
    | some r => exact Or.inl rfl
    | none =>
        cases hn : network request with
        | ok nr => exact cachePut_ok_or cache request k nr
        | error err => by_cases hd : isDocument <;> simp [hd]
  · unfold networkFirstStrategy
    cases hn : network request with
    | ok nr => exact cachePut_ok_or cache request k nr
    | error err => cases hc : cache request <;> simp [hc]
  · unfold staleWhileRevalidateStrategy
    cases hn : network request with
    | ok nr =>
        cases hc : cache request <;> simpa [hc, hn] using
          cachePut_ok_or cache request k nr
    | error err => cases hc : cache request <;> simp [hc, hn]

/-- Claim C10: when the StaleWhileRevalidate partition has no entry for
the request and the network fetch rejects, the strategy does not reject:
the background `.catch` swallows the error and the strategy resolves with
`undefined` (no usable response), leaving the partition unchanged. -/
theorem swr_miss_network_failure_resolves_undefined
    (cache : String → Option Response)
    (network : String → Except JsError Response) (request : String) (err : JsError)
    (hmiss : cache request = Option.none)
    (hnet : network request = Except.error err) :
    (staleWhileRevalidateStrategy cache network request).result =
      Except.ok Option.none ∧
    (staleWhileRevalidateStrategy cache network request).cache = cache := by
  unfold staleWhileRevalidateStrategy
  simp [hmiss, hnet]

/-- Witness for C10 on an empty partition and a failing network. -/
theorem swr_miss_network_failure_witness :
    (staleWhileRevalidateStrategy (fun _ => Option.none)
        (fun _ => Except.error ⟨"TypeError", "Failed to fetch"⟩)
        "http://x/cover.png").result = Except.ok Option.none ∧
    (staleWhileRevalidateStrategy (fun _ => Option.none)
        (fun _ => Except.error ⟨"TypeError", "Failed to fetch"⟩)
        "http://x/cover.png").cache = (fun _ => Option.none) :=
  swr_miss_network_failure_resolves_undefined (fun _ => Option.none)
    (fun _ => Except.error ⟨"TypeError", "Failed to fetch"⟩)
    "http://x/cover.png" ⟨"TypeError", "Failed to fetch"⟩ rfl rfl

end PodcastPWA
